import Mathlib

/-!
Verification development for a small Flask web service (`app.py`) that
forwards review text to an LLM provider, normalizes the fenced JSON the
provider returns, and scrapes product pages.  All strings are modelled as
`List Char`; external effects (the LLM, `trafilatura.fetch_url`,
`trafilatura.extract`, the model-construction and smoke-test calls) are
modelled as oracle function parameters.
-/

/-- The backtick character (code 96), written via `Char.ofNat`. -/
def cBq : Char := Char.ofNat 96

/-- The double-quote character (code 34). -/
def cQuote : Char := Char.ofNat 34

/-- The backslash character (code 92). -/
def cBackslash : Char := Char.ofNat 92

/-- Left curly brace (code 123). -/
def cLBrace : Char := Char.ofNat 123

/-- Right curly brace (code 125). -/
def cRBrace : Char := Char.ofNat 125

/-- Left square bracket (code 91). -/
def cLBrack : Char := Char.ofNat 91

/-- Right square bracket (code 93). -/
def cRBrack : Char := Char.ofNat 93

/-- Python `str.strip()` whitespace (ASCII): space, tab, LF, CR, VT, FF. -/
def isPySpace (c : Char) : Bool :=
  decide (c = ' ' ∨ c = '\t' ∨ c = '\n' ∨ c = '\r' ∨ c = Char.ofNat 11 ∨ c = Char.ofNat 12)

/-- Python `str.lstrip()`. -/
def lstrip (s : List Char) : List Char := s.dropWhile isPySpace

/-- Python `str.rstrip()`. -/
def rstrip (s : List Char) : List Char := (s.reverse.dropWhile isPySpace).reverse

/-- Python `str.strip()`: drop leading and trailing whitespace. -/
def pyStrip (s : List Char) : List Char := rstrip (lstrip s)

/-- The `replace('\n', ' ')` step of the normalizer, applied characterwise. -/
def nlToSpace (c : Char) : Char := if c = '\n' then ' ' else c

/-- Python substring membership `sep in s` (for the separators used here). -/
def containsSub (sep : List Char) : List Char → Bool
  | [] => sep.isEmpty
  | c :: t => sep.isPrefixOf (c :: t) || containsSub sep t

/-- `s.split(sep)[0]`: the part of `s` before the first occurrence of `sep`
(the whole of `s` when `sep` does not occur). -/
def splitBefore (sep : List Char) : List Char → List Char
  | [] => []
  | c :: t => if sep.isPrefixOf (c :: t) then [] else c :: splitBefore sep t

/-- The part of `s` after the first occurrence of `sep` ([] when absent);
`s.split(sep)[1] = splitBefore sep (splitAfter sep s)` when `sep` occurs. -/
def splitAfter (sep : List Char) : List Char → List Char
  | [] => []
  | c :: t => if sep.isPrefixOf (c :: t) then (c :: t).drop sep.length else splitAfter sep t

/-- The JSON-tagged fence marker. -/
def fenceJson : List Char := "```json".data

/-- The generic fence marker. -/
def fence : List Char := "```".data

/-- Lines 121-126 of `app.py`: extract the candidate JSON string from the
response text.  Branch 1: `response_text.split("```json")[1].split("```")[0].strip()`;
branch 2: `response_text.split("```")[1].strip()`; branch 3: the raw text. -/
def extract_json_str (response_text : List Char) : List Char :=
  if containsSub fenceJson response_text then
    pyStrip (splitBefore fence (splitAfter fenceJson response_text))
  else if containsSub fence response_text then
    pyStrip (splitBefore fence (splitAfter fence response_text))
  else response_text

/-- Line 129 of `app.py`: `json_str = json_str.replace('\n', ' ').strip()`,
applied after the fence extraction. -/
def clean_json (response_text : List Char) : List Char :=
  pyStrip ((extract_json_str response_text).map nlToSpace)

/-- JSON values as produced by Python `json.loads`: numbers are kept as
their source lexemes, objects as insertion-ordered key/value lists. -/
inductive Json where
  | null : Json
  | bool (b : Bool) : Json
  | num (lexeme : List Char) : Json
  | str (s : List Char) : Json
  | arr (elems : List Json) : Json
  | obj (fields : List (List Char × Json)) : Json

/-- JSON inter-token whitespace accepted by Python's scanner. -/
def jsonWs (c : Char) : Bool := decide (c = ' ' ∨ c = '\t' ∨ c = '\n' ∨ c = '\r')

/-- Skip JSON whitespace. -/
def skipWs (s : List Char) : List Char := s.dropWhile jsonWs

/-- Value of one hexadecimal digit. -/
def hexVal (c : Char) : Option Nat :=
  if c.isDigit then some (c.toNat - 48)
  else if 97 ≤ c.toNat ∧ c.toNat ≤ 102 then some (c.toNat - 87)
  else if 65 ≤ c.toNat ∧ c.toNat ≤ 70 then some (c.toNat - 55)
  else none

/-- Single-character JSON string escapes. -/
def escPlain (e : Char) : Option Char :=
  if e = cQuote then some cQuote
  else if e = cBackslash then some cBackslash
  else if e = '/' then some '/'
  else if e = 'b' then some (Char.ofNat 8)
  else if e = 'f' then some (Char.ofNat 12)
  else if e = 'n' then some (Char.ofNat 10)
  else if e = 'r' then some (Char.ofNat 13)
  else if e = 't' then some (Char.ofNat 9)
  else none

/-- Body of a JSON string (strict mode: raw control characters rejected),
after the opening quote; returns the decoded characters and the rest of
the input after the closing quote. -/
def parseStringBody : Nat → List Char → Option (List Char × List Char)
  | 0, _ => none
  | _fuel + 1, [] => none
  | fuel + 1, c :: rest =>
    if c = cQuote then some ([], rest)
    else if c = cBackslash then
      match rest with
      | [] => none
      | e :: rest2 =>
        if e = 'u' then
          match rest2 with
          | h1 :: h2 :: h3 :: h4 :: rest3 =>
            match hexVal h1, hexVal h2, hexVal h3, hexVal h4 with
            | some v1, some v2, some v3, some v4 =>
              match parseStringBody fuel rest3 with
              | some (cs, r) => some (Char.ofNat (((v1 * 16 + v2) * 16 + v3) * 16 + v4) :: cs, r)
              | none => none
            | _, _, _, _ => none
          | _ => none
        else
          match escPlain e with
          | some ch =>
            match parseStringBody fuel rest2 with
            | some (cs, r) => some (ch :: cs, r)
            | none => none
          | none => none
    else if c.toNat < 32 then none
    else
      match parseStringBody fuel rest with
      | some (cs, r) => some (c :: cs, r)
      | none => none

/-- Optional fraction part `.[0-9]+` of a JSON number (empty if absent). -/
def parseFrac (s : List Char) : List Char × List Char :=
  match s with
  | c :: t =>
    if c = '.' then
      let ds := t.takeWhile Char.isDigit
      if ds.isEmpty then ([], s) else (c :: ds, t.dropWhile Char.isDigit)
    else ([], s)
  | [] => ([], s)

/-- Optional exponent part `[eE][+-]?[0-9]+` of a JSON number. -/
def parseExp (s : List Char) : List Char × List Char :=
  match s with
  | c :: t =>
    if c = 'e' ∨ c = 'E' then
      match t with
      | c2 :: t2 =>
        if c2 = '+' ∨ c2 = '-' then
          let ds := t2.takeWhile Char.isDigit
          if ds.isEmpty then ([], s) else (c :: c2 :: ds, t2.dropWhile Char.isDigit)
        else
          let ds := t.takeWhile Char.isDigit
          if ds.isEmpty then ([], s) else (c :: ds, t.dropWhile Char.isDigit)
      | [] => ([], s)
    else ([], s)
  | [] => ([], s)

/-- Fraction followed by exponent. -/
def parseFracExp (s : List Char) : List Char × List Char :=
  let f := parseFrac s
  let e := parseExp f.2
  (f.1 ++ e.1, e.2)

/-- The number lexeme matched by Python's `NUMBER_RE`:
`(-?(?:0|[1-9]\d*))(\.\d+)?([eE][-+]?\d+)?`. -/
def parseNumberLex (s : List Char) : Option (List Char × List Char) :=
  let sign : List Char × List Char :=
    match s with
    | c :: t => if c = '-' then ([c], t) else ([], s)
    | [] => ([], s)
  match sign.2 with
  | [] => none
  | d :: t =>
    if d = '0' then
      let fe := parseFracExp t
      some (sign.1 ++ d :: fe.1, fe.2)
    else if d.isDigit then
      let ds := t.takeWhile Char.isDigit
      let fe := parseFracExp (t.dropWhile Char.isDigit)
      some (sign.1 ++ d :: (ds ++ fe.1), fe.2)
    else none

/-- Insert a key into an object under construction with Python `dict`
semantics: an existing key keeps its position and gets the new value. -/
def objInsert (fields : List (List Char × Json)) (k : List Char) (v : Json) :
    List (List Char × Json) :=
  if fields.any (fun kv => kv.1 = k) then
    fields.map (fun kv => if kv.1 = k then (k, v) else kv)
  else fields ++ [(k, v)]

mutual

/-- One JSON value, dispatching like Python's `scan_once` (string, object,
array, `null`, `true`, `false`, number, `NaN`, `Infinity`, `-Infinity`);
leading whitespace is skipped. -/
def parseValue : Nat → List Char → Option (Json × List Char)
  | 0, _ => none
  | fuel + 1, s =>
    match skipWs s with
    | [] => none
    | c :: t =>
      if c = cQuote then
        match parseStringBody (t.length + 1) t with
        | some (cs, r) => some (Json.str cs, r)
        | none => none
      else if c = cLBrace then parseObjectBody fuel t
      else if c = cLBrack then parseArrayBody fuel t
      else if List.isPrefixOf "null".data (c :: t) then some (Json.null, (c :: t).drop 4)
      else if List.isPrefixOf "true".data (c :: t) then some (Json.bool true, (c :: t).drop 4)
      else if List.isPrefixOf "false".data (c :: t) then some (Json.bool false, (c :: t).drop 5)
      else
        match parseNumberLex (c :: t) with
        | some (lex, rest) => some (Json.num lex, rest)
        | none =>
          if List.isPrefixOf "NaN".data (c :: t) then some (Json.num "NaN".data, (c :: t).drop 3)
          else if List.isPrefixOf "Infinity".data (c :: t) then
            some (Json.num "Infinity".data, (c :: t).drop 8)
          else if List.isPrefixOf "-Infinity".data (c :: t) then
            some (Json.num "-Infinity".data, (c :: t).drop 9)
          else none

/-- Object body after the opening brace. -/
def parseObjectBody : Nat → List Char → Option (Json × List Char)
  | 0, _ => none
  | fuel + 1, s =>
    match skipWs s with
    | [] => none
    | c :: t =>
      if c = cRBrace then some (Json.obj [], t)
      else parseObjectLoop fuel [] (c :: t)

/-- Members of an object; expects a quoted key at the start of the input. -/
def parseObjectLoop : Nat → List (List Char × Json) → List Char → Option (Json × List Char)
  | 0, _, _ => none
  | fuel + 1, acc, s =>
    match s with
    | [] => none
    | c :: t =>
      if c = cQuote then
        match parseStringBody (t.length + 1) t with
        | some (key, r1) =>
          match skipWs r1 with
          | ':' :: r3 =>
            match parseValue fuel r3 with
            | some (v, r4) =>
              match skipWs r4 with
              | c5 :: r5 =>
                if c5 = cRBrace then some (Json.obj (objInsert acc key v), r5)
                else if c5 = ',' then parseObjectLoop fuel (objInsert acc key v) (skipWs r5)
                else none
              | [] => none
            | none => none
          | _ => none
        | none => none
      else none

/-- Array body after the opening bracket. -/
def parseArrayBody : Nat → List Char → Option (Json × List Char)
  | 0, _ => none
  | fuel + 1, s =>
    match skipWs s with
    | c :: t =>
      if c = cRBrack then some (Json.arr [], t)
      else parseArrayLoop fuel [] (c :: t)
    | [] => none

/-- Elements of an array. -/
def parseArrayLoop : Nat → List Json → List Char → Option (Json × List Char)
  | 0, _, _ => none
  | fuel + 1, acc, s =>
    match parseValue fuel s with
    | some (v, r) =>
      match skipWs r with
      | c :: t =>
        if c = cRBrack then some (Json.arr (acc ++ [v]), t)
        else if c = ',' then parseArrayLoop fuel (acc ++ [v]) t
        else none
      | [] => none
    | none => none

end

/-- Python `json.loads`: parse one value and require only whitespace after
it; `none` models `json.JSONDecodeError`. -/
def loads (s : List Char) : Option Json :=
  match parseValue (4 * s.length + 8) s with
  | some (v, rest) => if (skipWs rest).isEmpty then some v else none
  | none => none

/-- The part of the `/analyze` prompt template (lines 80-111 of `app.py`)
before the interpolated review text, including the quote that wraps it. -/
def analyze_prompt_pre : List Char :=
  ("\n" ++
   "        You are a product review analyzer with expertise in detecting fake reviews. Please analyze the following product review:\n" ++
   "        \n" ++
   "        \"").data

/-- The part of the `/analyze` prompt template after the review text. -/
def analyze_prompt_post : List Char :=
  ("\"\n" ++
   "        \n" ++
   "        Please provide the following analysis in JSON format:\n" ++
   "        1. Sentiment: Overall sentiment (positive, negative, or neutral)\n" ++
   "        2. Score: A numerical score from 1-10\n" ++
   "        3. Key Points: List of main points from the review (maximum 5)\n" ++
   "        4. Strengths: Product strengths mentioned (maximum 3)\n" ++
   "        5. Weaknesses: Product weaknesses mentioned (maximum 3)\n" ++
   "        6. Summary: A brief summary of the review (maximum 2 sentences)\n" ++
   "        7. Improvement Suggestions: Suggested improvements based on the review (maximum 2)\n" ++
   "        8. AuthenticityScore: A numerical score from 1-100 indicating how likely the review is genuine (where 100 is definitely genuine)\n" ++
   "        9. AuthenticityAssessment: A brief assessment of whether the review seems authentic or potentially fake, and what factors led to this determination\n" ++
   "        \n" ++
   "        Factors that might indicate a fake review:\n" ++
   "        - Overly positive or negative language without specific details\n" ++
   "        - Generic statements that could apply to any product\n" ++
   "        - Excessive use of brand names\n" ++
   "        - Language inconsistencies or awkward phrasing\n" ++
   "        - Lack of personal experience details\n" ++
   "        \n" ++
   "        Factors indicating authentic reviews:\n" ++
   "        - Specific details about product usage\n" ++
   "        - Balanced pros and cons\n" ++
   "        - Specific context about how they used the product\n" ++
   "        - Mentions of comparable products\n" ++
   "        - Natural language patterns\n" ++
   "        \n" ++
   "        Return only a valid JSON object with these fields.\n" ++
   "        ").data

/-- The `/analyze` prompt: the template with the review text interpolated. -/
def analyze_prompt (review_text : List Char) : List Char :=
  analyze_prompt_pre ++ review_text ++ analyze_prompt_post

/-- Outcome of the `/analyze` handler.  `parseFailure` carries the raw
provider response (returned in the 500 body as `raw_response`) and the
post-extraction string (written to the diagnostic log), exactly the two
values emitted by lines 135-142 of `app.py`. -/
inductive AnalyzeResult where
  | noReview : AnalyzeResult
  | success (analysis : Json) : AnalyzeResult
  | parseFailure (rawResponse : List Char) (jsonStr : List Char) : AnalyzeResult

/-- HTTP status code the `/analyze` handler pairs with each outcome. -/
def AnalyzeResult.status : AnalyzeResult → Nat
  | .noReview => 400
  | .success _ => 200
  | .parseFailure _ _ => 500

/-- JSON body the `/analyze` handler returns for each outcome. -/
def analyze_body : AnalyzeResult → Json
  | .noReview => .obj [("error".data, .str "No review text provided".data)]
  | .success analysis => analysis
  | .parseFailure raw _ =>
    .obj [("error".data, .str "Failed to parse the response from Gemini API".data),
          ("raw_response".data, .str raw)]

/-- The two `logger.debug` lines emitted on a parse failure (lines 137-138). -/
def analyze_debug_log : AnalyzeResult → List (List Char)
  | .parseFailure raw js =>
    [("Response text: ".data ++ raw), ("Extracted JSON string: ".data ++ js)]
  | _ => []

/-- The `/analyze` handler (lines 68-142 of `app.py`), with the LLM modelled
as a prompt-to-response oracle.  Returns the outcome together with the list
of prompts actually sent to the provider. -/
def analyze_review (review_text : List Char) (llm : List Char → List Char) :
    AnalyzeResult × List (List Char) :=
  if review_text.isEmpty then (.noReview, [])
  else
    let prompt := analyze_prompt review_text
    let response_text := llm prompt
    let json_str := clean_json response_text
    match loads json_str with
    | some analysis => (.success analysis, [prompt])
    | none => (.parseFailure response_text json_str, [prompt])

/-- Characters allowed in a URL scheme after the first letter
(`urllib.parse.scheme_chars`). -/
def scheme_chars : List Char :=
  ("abcdefghijklmnopqrstuvwxyz" ++ "ABCDEFGHIJKLMNOPQRSTUVWXYZ" ++ "0123456789" ++ "+-.").data

/-- ASCII letter test, as in `url[0].isascii() and url[0].isalpha()`. -/
def isAsciiAlpha (c : Char) : Bool :=
  decide ((65 ≤ c.toNat ∧ c.toNat ≤ 90) ∨ (97 ≤ c.toNat ∧ c.toNat ≤ 122))

/-- The scheme/rest split of `urllib.parse.urlsplit`: the part before the
first `:` is the (lowercased) scheme when it is nonempty, starts with an
ASCII letter and uses only scheme characters; otherwise the scheme is
empty and the URL is left whole. -/
def splitSchemeRest (url : List Char) : List Char × List Char :=
  match url.findIdx? (fun c => decide (c = ':')) with
  | some i =>
    if 0 < i ∧ isAsciiAlpha (url.headD ' ') ∧ (url.take i).all (fun c => scheme_chars.contains c) then
      ((url.take i).map Char.toLower, url.drop (i + 1))
    else ([], url)
  | none => ([], url)

/-- The netloc split of `urllib.parse.urlsplit`: when the remaining URL
starts with `//`, the netloc runs to the first of `/`, `?` or `#`. -/
def splitNetlocRest (rest : List Char) : List Char × List Char :=
  match rest with
  | c1 :: c2 :: r =>
    if c1 = '/' ∧ c2 = '/' then
      let nl := r.takeWhile (fun c => decide (c ≠ '/' ∧ c ≠ '?' ∧ c ≠ '#'))
      (nl, r.drop nl.length)
    else ([], rest)
  | _ => ([], rest)

/-- The scheme and netloc components of a parsed URL. -/
structure UrlParts where
  scheme : List Char
  netloc : List Char
deriving DecidableEq

/-- `urllib.parse.urlparse`, restricted to the two components the handler
reads.  `none` models the `ValueError` raised for a netloc containing one
of `[`, `]` without the other (the handler's `except` branch).  Validation
of a fully bracketed IPv6 host is not modelled. -/
def urlparse (url : List Char) : Option UrlParts :=
  let rest := (splitSchemeRest url).2
  let scheme := (splitSchemeRest url).1
  let netloc := (splitNetlocRest rest).1
  if (netloc.contains cLBrack && !netloc.contains cRBrack) ||
     (netloc.contains cRBrack && !netloc.contains cLBrack) then none
  else some ⟨scheme, netloc⟩

/-- Line 177 of `app.py`: the fixed list of e-commerce domain fragments. -/
def e_commerce_sites : List (List Char) :=
  [".flipkart.".data, ".amazon.".data, ".meesho.".data, ".myntra.".data,
   ".ebay.".data, ".walmart.".data]

/-- Line 178: `any(site in url.lower() for site in e_commerce_sites)` —
substring membership against the whole lowercased URL string. -/
def is_ecommerce (url : List Char) : Bool :=
  e_commerce_sites.any (fun site => containsSub site (url.map Char.toLower))

/-- The part of the review-synthesis prompt (lines 204-220 of `app.py`)
before the interpolated page content, including the quote that wraps it. -/
def review_prompt_pre : List Char :=
  ("\n" ++
   "        You are a product reviewer. I will provide you with content extracted from a product page.\n" ++
   "        Based on this content, generate a comprehensive product review.\n" ++
   "\n" ++
   "        Product page content:\n" ++
   "        \"").data

/-- The part of the review-synthesis prompt after the page content. -/
def review_prompt_post : List Char :=
  ("\"  # Limiting content length to avoid token limits\n" ++
   "\n" ++
   "        Please write a detailed review of this product that includes:\n" ++
   "        1. Product name and basic description\n" ++
   "        2. Key features and specifications\n" ++
   "        3. Perceived quality and build\n" ++
   "        4. Value for money\n" ++
   "        5. Target audience\n" ++
   "        6. Overall assessment\n" ++
   "        \n" ++
   "        Keep the review balanced, honest, and informative. The length should be around 300-500 words.\n" ++
   "        ").data

/-- The review-synthesis prompt: the template with `content[:8000]`
interpolated (the truncation happens inside the f-string, line 209). -/
def review_prompt (content : List Char) : List Char :=
  review_prompt_pre ++ content.take 8000 ++ review_prompt_post

/-- The part of the scrape-analysis prompt (lines 227-246) after the
interpolated synthesized review. -/
def scrape_analysis_prompt_post : List Char :=
  ("\"\n" ++
   "        \n" ++
   "        Please provide the following analysis in JSON format:\n" ++
   "        1. Sentiment: Overall sentiment (positive, negative, or neutral)\n" ++
   "        2. Score: A numerical score from 1-10\n" ++
   "        3. Key Points: List of main points from the review (maximum 5)\n" ++
   "        4. Strengths: Product strengths mentioned (maximum 3)\n" ++
   "        5. Weaknesses: Product weaknesses mentioned (maximum 3)\n" ++
   "        6. Summary: A brief summary of the review (maximum 2 sentences)\n" ++
   "        7. Improvement Suggestions: Suggested improvements based on the review (maximum 2)\n" ++
   "        8. ProductName: The name of the product\n" ++
   "        9. Review: The full text of the generated review\n" ++
   "        10. AuthenticityScore: A numerical score from 1-100 indicating how likely the review is genuine (where 100 is definitely genuine)\n" ++
   "        11. AuthenticityAssessment: A brief assessment of whether the review seems authentic or potentially fabricated\n" ++
   "        \n" ++
   "        Return only a valid JSON object with these fields.\n" ++
   "        ").data

/-- The scrape-analysis prompt: shares its opening with the `/analyze`
template (the `analysis_prompt` f-string of lines 227-246). -/
def scrape_analysis_prompt (review_text : List Char) : List Char :=
  analyze_prompt_pre ++ review_text ++ scrape_analysis_prompt_post

/-- Outcome of the `/scrape` handler.  `invalidUrlFormat` is the explicit
scheme/netloc check (line 163), `invalidUrlParse` the `except` branch for a
`ValueError` from `urlparse` (line 165). -/
inductive ScrapeResult where
  | noUrl : ScrapeResult
  | invalidUrlFormat : ScrapeResult
  | invalidUrlParse : ScrapeResult
  | botProtected : ScrapeResult
  | fetchFailed : ScrapeResult
  | insufficientContent : ScrapeResult
  | success (analysis : Json) : ScrapeResult
  | parseFailure (rawResponse : List Char) (jsonStr : List Char) : ScrapeResult

/-- HTTP status code the `/scrape` handler pairs with each outcome. -/
def ScrapeResult.status : ScrapeResult → Nat
  | .noUrl => 400
  | .invalidUrlFormat => 400
  | .invalidUrlParse => 400
  | .botProtected => 429
  | .fetchFailed => 400
  | .insufficientContent => 400
  | .success _ => 200
  | .parseFailure _ _ => 500

/-- Result of a `/scrape` request together with the URLs passed to
`trafilatura.fetch_url` and the prompts sent to the LLM provider. -/
structure ScrapeTrace where
  result : ScrapeResult
  fetched : List (List Char)
  prompts : List (List Char)

/-- The `/scrape` handler (lines 148-274 of `app.py`).  `fetch_url` and
`extract` model the two trafilatura phases ([] models a falsy
`None`/empty result), `llm` the provider. -/
def scrape_product (url : List Char) (fetch_url : List Char → List Char)
    (extract : List Char → List Char) (llm : List Char → List Char) : ScrapeTrace :=
  if url.isEmpty then ⟨.noUrl, [], []⟩
  else
    match urlparse url with
    | none => ⟨.invalidUrlParse, [], []⟩
    | some parsed_url =>
      if parsed_url.scheme.isEmpty ∨ parsed_url.netloc.isEmpty then ⟨.invalidUrlFormat, [], []⟩
      else
        let downloaded := fetch_url url
        if downloaded.isEmpty then
          if is_ecommerce url then ⟨.botProtected, [url], []⟩
          else ⟨.fetchFailed, [url], []⟩
        else
          let content := extract downloaded
          if content.isEmpty ∨ content.length < 100 then ⟨.insufficientContent, [url], []⟩
          else
            let prompt := review_prompt content
            let review_text := llm prompt
            let analysis_prompt2 := scrape_analysis_prompt review_text
            let response_text := llm analysis_prompt2
            let json_str := clean_json response_text
            match loads json_str with
            | some analysis => ⟨.success analysis, [url], [prompt, analysis_prompt2]⟩
            | none => ⟨.parseFailure response_text json_str, [url], [prompt, analysis_prompt2]⟩

/-- The ordered candidate list of lines 32-36 of `app.py`. -/
def model_candidates : List (List Char) :=
  ["models/gemini-1.5-flash".data, "models/chat-bison-001".data, "models/text-bison-001".data]

/-- The last-resort identifier of line 58. -/
def fallback_model : List Char := "models/gemini-1.5-flash-latest".data

/-- Result of startup model selection: the committed handle (`none` models
the global `model` still being `None`) plus the candidates whose
construction was attempted and those that received the `"Hello"` smoke
test. -/
structure SelectTrace where
  model : Option (List Char)
  attempted : List (List Char)
  smoke_tested : List (List Char)
deriving DecidableEq

/-- The candidate loop of lines 39-51: `model = genai.GenerativeModel(c)`
(failure modelled by `construct_ok c = false` leaves the previous binding
of `model` in place) followed by `model.generate_content("Hello")`
(failure modelled by `smoke_ok c = false` also leaves `model` bound to the
just-constructed candidate); the loop breaks at the first candidate that
passes both. -/
def try_candidates (construct_ok smoke_ok : List Char → Bool) :
    List (List Char) → Option (List Char) → SelectTrace
  | [], m => ⟨m, [], []⟩
  | c :: rest, m =>
    if construct_ok c then
      if smoke_ok c then ⟨some c, [c], [c]⟩
      else
        let t := try_candidates construct_ok smoke_ok rest (some c)
        ⟨t.model, c :: t.attempted, c :: t.smoke_tested⟩
    else
      let t := try_candidates construct_ok smoke_ok rest m
      ⟨t.model, c :: t.attempted, t.smoke_tested⟩

/-- The whole startup block of lines 25-61: if `genai.list_models()` raises
(`list_ok = false`) the outer `except` leaves `model = None`; otherwise the
candidate loop runs, and only if `model is None` afterwards is the
fallback constructed — without any smoke test. -/
def startup_select (list_ok : Bool) (construct_ok smoke_ok : List Char → Bool) : SelectTrace :=
  if list_ok then
    let t := try_candidates construct_ok smoke_ok model_candidates none
    match t.model with
    | some m => ⟨some m, t.attempted, t.smoke_tested⟩
    | none => ⟨if construct_ok fallback_model then some fallback_model else none,
               t.attempted, t.smoke_tested⟩
  else ⟨none, [], []⟩

/-- `isPrefixOf` agrees with the `<+:` relation (over `Char`). -/
theorem isPrefixOf_eq_true_iff : ∀ (l1 l2 : List Char), l1.isPrefixOf l2 = true ↔ l1 <+: l2
  | [], l2 => ⟨fun _ => ⟨l2, rfl⟩, fun _ => List.isPrefixOf_nil_left⟩
  | a :: as, [] => by
    simp only [List.isPrefixOf]
    constructor
    · intro h; exact absurd h (by simp)
    · rintro ⟨t, ht⟩; simp at ht
  | a :: as, b :: bs => by
    simp only [List.isPrefixOf, Bool.and_eq_true, beq_iff_eq, List.cons_prefix_cons]
    exact and_congr Iff.rfl (isPrefixOf_eq_true_iff as bs)

/-- `containsSub` agrees with the `<:+:` relation. -/
theorem containsSub_eq_true_iff (sep : List Char) :
    ∀ s : List Char, containsSub sep s = true ↔ sep <:+: s
  | [] => by
    simp only [containsSub, List.isEmpty_iff, List.infix_nil]
  | c :: t => by
    simp only [containsSub, Bool.or_eq_true, isPrefixOf_eq_true_iff,
      containsSub_eq_true_iff sep t, List.infix_cons_iff]

/-- A separator occurs in any string that spells it out. -/
theorem containsSub_marker (sep p z : List Char) :
    containsSub sep (p ++ (sep ++ z)) = true := by
  rw [containsSub_eq_true_iff]
  exact ⟨p, z, by simp⟩

/-- Differing heads mean no prefix. -/
theorem isPrefixOf_cons_ne (a b : Char) (as bs : List Char) (h : a ≠ b) :
    (a :: as).isPrefixOf (b :: bs) = false := by
  have hb : (a == b) = false := beq_eq_false_iff_ne.mpr h
  simp [List.isPrefixOf, hb]

/-- A marker starting with a backtick is no prefix of a backtick-free string. -/
theorem isPrefixOf_bq_free (tl s : List Char) (hs : ∀ c ∈ s, c ≠ cBq) :
    (cBq :: tl).isPrefixOf s = false := by
  cases s with
  | nil => rfl
  | cons c t =>
    exact isPrefixOf_cons_ne _ _ _ _ (fun h => (hs c (by simp)) h.symm)

/-- A marker starting with a backtick does not occur in a backtick-free string. -/
theorem containsSub_bq_free (tl : List Char) :
    ∀ s : List Char, (∀ c ∈ s, c ≠ cBq) → containsSub (cBq :: tl) s = false
  | [], _ => rfl
  | c :: t, hs => by
    have h1 := isPrefixOf_bq_free tl (c :: t) hs
    have h2 := containsSub_bq_free tl t (fun x hx => hs x (by simp [hx]))
    simp [containsSub, h1, h2]

/-- `splitAfter` lands right after the marker when the preceding part is
backtick-free. -/
theorem splitAfter_marker (tl : List Char) :
    ∀ p z : List Char, (∀ c ∈ p, c ≠ cBq) →
      splitAfter (cBq :: tl) (p ++ ((cBq :: tl) ++ z)) = z
  | [], z, _ => by
    have h1 : (cBq :: tl).isPrefixOf (cBq :: (tl ++ z)) = true :=
      (isPrefixOf_eq_true_iff _ _).mpr ⟨z, by simp⟩
    show splitAfter (cBq :: tl) (cBq :: (tl ++ z)) = z
    rw [splitAfter, if_pos h1]
    simp only [List.length_cons, List.drop_succ_cons]
    exact List.drop_left tl z
  | c :: p, z, hp => by
    have hc : c ≠ cBq := hp c (by simp)
    have h2 : ¬ ((cBq :: tl).isPrefixOf (c :: (p ++ ((cBq :: tl) ++ z))) = true) := by
      simp [isPrefixOf_cons_ne _ _ _ _ (fun h => hc h.symm)]
    show splitAfter (cBq :: tl) (c :: (p ++ ((cBq :: tl) ++ z))) = z
    rw [splitAfter, if_neg h2]
    exact splitAfter_marker tl p z (fun x hx => hp x (by simp [hx]))

/-- `splitBefore` keeps exactly the backtick-free part before the marker. -/
theorem splitBefore_marker (tl : List Char) :
    ∀ i z : List Char, (∀ c ∈ i, c ≠ cBq) →
      splitBefore (cBq :: tl) (i ++ ((cBq :: tl) ++ z)) = i
  | [], z, _ => by
    have h1 : (cBq :: tl).isPrefixOf (cBq :: (tl ++ z)) = true :=
      (isPrefixOf_eq_true_iff _ _).mpr ⟨z, by simp⟩
    show splitBefore (cBq :: tl) (cBq :: (tl ++ z)) = []
    rw [splitBefore, if_pos h1]
  | c :: i, z, hi => by
    have hc : c ≠ cBq := hi c (by simp)
    have h2 : ¬ ((cBq :: tl).isPrefixOf (c :: (i ++ ((cBq :: tl) ++ z))) = true) := by
      simp [isPrefixOf_cons_ne _ _ _ _ (fun h => hc h.symm)]
    show splitBefore (cBq :: tl) (c :: (i ++ ((cBq :: tl) ++ z))) = c :: i
    rw [splitBefore, if_neg h2, splitBefore_marker tl i z (fun x hx => hi x (by simp [hx]))]

/-- With no marker present, `splitBefore` keeps the whole string. -/
theorem splitBefore_bq_free (tl : List Char) :
    ∀ i : List Char, (∀ c ∈ i, c ≠ cBq) → splitBefore (cBq :: tl) i = i
  | [], _ => rfl
  | c :: i, hi => by
    have h2 : ¬ ((cBq :: tl).isPrefixOf (c :: i) = true) := by
      simp [isPrefixOf_bq_free tl _ hi]
    rw [splitBefore, if_neg h2, splitBefore_bq_free tl i (fun x hx => hi x (by simp [hx]))]

/-- The JSON fence decomposes as backticks followed by the tag. -/
theorem fenceJson_decomp : fenceJson = cBq :: cBq :: cBq :: "json".data := by decide

/-- The generic fence is three backticks. -/
theorem fence_decomp : fence = cBq :: cBq :: cBq :: [] := by decide

/-- `fence` is an infix of `fenceJson`, so any occurrence of the tagged
marker is an occurrence of the generic one. -/
theorem containsSub_fence_of_fenceJson (s : List Char)
    (h : containsSub fenceJson s = true) : containsSub fence s = true := by
  rw [containsSub_eq_true_iff] at h ⊢
  exact List.IsInfix.trans ⟨[], "json".data, by decide⟩ h

/-- With no generic fence in the text, the extraction is the identity
(the third branch of lines 121-126). -/
theorem extract_json_str_id (s : List Char) (h : containsSub fence s = false) :
    extract_json_str s = s := by
  have h1 : containsSub fenceJson s = false := by
    cases hc : containsSub fenceJson s with
    | false => rfl
    | true => rw [containsSub_fence_of_fenceJson s hc] at h; exact absurd h (by simp)
  simp [extract_json_str, h, h1]

/-- Replacing newlines is the identity on newline-free strings. -/
theorem map_nlToSpace_id : ∀ s : List Char, (∀ c ∈ s, c ≠ '\n') → s.map nlToSpace = s
  | [], _ => rfl
  | c :: t, h => by
    have hc : nlToSpace c = c := by
      unfold nlToSpace
      rw [if_neg (h c (by simp))]
    simp only [List.map_cons, hc, List.cons.injEq, true_and]
    exact map_nlToSpace_id t (fun x hx => h x (by simp [hx]))

/-- `headD` of the reversal is `getLastD`. -/
theorem headD_reverse : ∀ (l : List Char) (d : Char), l.reverse.headD d = l.getLastD d
  | [], _ => rfl
  | a :: t, d => by
    rw [List.reverse_cons, List.getLastD_cons]
    cases hr : t.reverse with
    | nil =>
      have ht : t = [] := by simpa using congrArg List.reverse hr
      subst ht; rfl
    | cons x xs =>
      have ih := headD_reverse t a
      rw [hr] at ih
      rw [List.cons_append, List.headD_cons, ← ih, List.headD_cons]

/-- `lstrip` is the identity when the first character is not whitespace. -/
theorem lstrip_id (s : List Char) (hh : isPySpace (s.headD 'x') = false) : lstrip s = s := by
  cases s with
  | nil => rfl
  | cons a t =>
    have ha : isPySpace a = false := hh
    simp [lstrip, List.dropWhile_cons, ha]

/-- `rstrip` is the identity when the last character is not whitespace. -/
theorem rstrip_id (s : List Char) (hl : isPySpace (s.getLastD 'x') = false) : rstrip s = s := by
  have h : isPySpace (s.reverse.headD 'x') = false := by rw [headD_reverse]; exact hl
  unfold rstrip
  cases hr : s.reverse with
  | nil =>
    have hs : s = [] := by simpa using congrArg List.reverse hr
    subst hs; rfl
  | cons b bs =>
    rw [hr] at h
    have hb : isPySpace b = false := h
    rw [List.dropWhile_cons, hb]
    simp only [Bool.false_eq_true, if_false]
    have := congrArg List.reverse hr
    simpa using this.symm

/-- Python `strip` is the identity when neither end is whitespace. -/
theorem pyStrip_id (s : List Char) (hh : isPySpace (s.headD 'x') = false)
    (hl : isPySpace (s.getLastD 'x') = false) : pyStrip s = s := by
  unfold pyStrip
  rw [lstrip_id s hh, rstrip_id s hl]

/-- The rest after the scheme split is a suffix of the URL. -/
theorem splitSchemeRest_suffix (url : List Char) : (splitSchemeRest url).2 <:+ url := by
  unfold splitSchemeRest
  cases url.findIdx? (fun c => decide (c = ':')) with
  | none => exact List.suffix_refl url
  | some i =>
    dsimp only
    split
    · exact List.drop_suffix _ _
    · exact List.suffix_refl url

/-- The netloc split yields an infix of its input. -/
theorem splitNetlocRest_within (rest : List Char) : (splitNetlocRest rest).1 <:+: rest := by
  unfold splitNetlocRest
  match rest with
  | [] => exact ⟨[], [], rfl⟩
  | [c1] => exact ⟨[], [c1], rfl⟩
  | c1 :: c2 :: r =>
    dsimp only
    split
    · show List.takeWhile (fun c => decide (c ≠ '/' ∧ c ≠ '?' ∧ c ≠ '#')) r <:+: c1 :: c2 :: r
      exact ⟨[c1, c2], r.dropWhile (fun c => decide (c ≠ '/' ∧ c ≠ '?' ∧ c ≠ '#')),
        by simp [List.takeWhile_append_dropWhile]⟩
    · exact ⟨[], c1 :: c2 :: r, rfl⟩

/-- A parsed netloc is an infix of the URL it came from. -/
theorem urlparse_netloc_within (url : List Char) (parts : UrlParts)
    (h : urlparse url = some parts) : parts.netloc <:+: url := by
  unfold urlparse at h
  dsimp only at h
  split at h
  · exact absurd h (by simp)
  · rw [Option.some.injEq] at h
    rw [← h]
    exact (splitNetlocRest_within _).trans (splitSchemeRest_suffix url).isInfix

/-- The tagged marker does not occur in `p ++ fence ++ i` when `p` and `i`
are backtick-free and `i` does not start with the tag. -/
theorem fenceJson_not_in_generic : ∀ p i : List Char, (∀ c ∈ p, c ≠ cBq) →
    (∀ c ∈ i, c ≠ cBq) → List.isPrefixOf "json".data i = false →
    containsSub fenceJson (p ++ (fence ++ i)) = false
  | [], i, _, hi, hj => by
    rw [List.nil_append, fence_decomp]
    show containsSub fenceJson (cBq :: cBq :: cBq :: i) = false
    rw [fenceJson_decomp]
    have e1 : List.isPrefixOf (cBq :: cBq :: cBq :: "json".data) (cBq :: cBq :: cBq :: i) =
        List.isPrefixOf "json".data i := by
      simp [List.isPrefixOf]
    have e2 : List.isPrefixOf (cBq :: cBq :: cBq :: "json".data) (cBq :: cBq :: i) = false := by
      have h := isPrefixOf_bq_free ("json".data) i hi
      simp [List.isPrefixOf, h]
    have e3 : List.isPrefixOf (cBq :: cBq :: cBq :: "json".data) (cBq :: i) = false := by
      have h := isPrefixOf_bq_free (cBq :: "json".data) i hi
      simp [List.isPrefixOf, h]
    have e4 : containsSub (cBq :: cBq :: cBq :: "json".data) i = false :=
      containsSub_bq_free _ i hi
    rw [containsSub, containsSub, containsSub, e1, hj, e2, e3, e4]
    rfl
  | c :: p, i, hp, hi, hj => by
    have hc : c ≠ cBq := hp c (by simp)
    have h1 : List.isPrefixOf fenceJson (c :: (p ++ (fence ++ i))) = false := by
      rw [fenceJson_decomp]
      exact isPrefixOf_cons_ne _ _ _ _ (fun h => hc h.symm)
    show containsSub fenceJson (c :: (p ++ (fence ++ i))) = false
    rw [containsSub, h1,
      fenceJson_not_in_generic p i (fun x hx => hp x (by simp [hx])) hi hj]
    rfl

/-- Claim C1: for a response of the shape
`prose ++ "```json" ++ interior ++ "```" ++ trailer` (prose and interior
fence-free, i.e. backtick-free), the normalizer extracts exactly the
interior — stripped, newline-replaced and stripped again — and parses only
that, never the surrounding prose; in particular the scenario response
containing the fenced Sentiment/Score object parses to exactly that
object. -/
theorem C1_fenced_json_extraction (p i rest : List Char)
    (hp : ∀ c ∈ p, c ≠ cBq) (hi : ∀ c ∈ i, c ≠ cBq) :
    extract_json_str (p ++ fenceJson ++ i ++ fence ++ rest) = pyStrip i
    ∧ clean_json (p ++ fenceJson ++ i ++ fence ++ rest) = pyStrip ((pyStrip i).map nlToSpace)
    ∧ loads (clean_json ("```json\n\x7b\"Sentiment\":\"positive\",\"Score\":8\x7d\n```".data)) =
        some (Json.obj [("Sentiment".data, Json.str "positive".data),
                        ("Score".data, Json.num "8".data)]) := by
  have hassoc : p ++ fenceJson ++ i ++ fence ++ rest =
      p ++ (fenceJson ++ (i ++ (fence ++ rest))) := by
    simp [List.append_assoc]
  have hext : extract_json_str (p ++ fenceJson ++ i ++ fence ++ rest) = pyStrip i := by
    rw [hassoc]
    unfold extract_json_str
    rw [if_pos (containsSub_marker fenceJson p (i ++ (fence ++ rest)))]
    rw [fenceJson_decomp, splitAfter_marker _ p _ hp]
    rw [fence_decomp, splitBefore_marker _ i rest hi]
  refine ⟨hext, ?_, by rfl⟩
  unfold clean_json
  rw [hext]

/-- Claim C10: an opening fence with no later closing fence does not make
the normalizer fail or fall back to the raw text: everything from the end
of the opening marker to the end of the text becomes the parse candidate.
Stated for `p ++ "```json" ++ i` and (when `i` does not start with the
`json` tag) for `p ++ "```" ++ i`, with `p` and `i` backtick-free. -/
theorem C10_unclosed_fence (p i : List Char)
    (hp : ∀ c ∈ p, c ≠ cBq) (hi : ∀ c ∈ i, c ≠ cBq) :
    (extract_json_str (p ++ fenceJson ++ i) = pyStrip i
      ∧ clean_json (p ++ fenceJson ++ i) = pyStrip ((pyStrip i).map nlToSpace))
    ∧ (List.isPrefixOf "json".data i = false →
        extract_json_str (p ++ fence ++ i) = pyStrip i
        ∧ clean_json (p ++ fence ++ i) = pyStrip ((pyStrip i).map nlToSpace)) := by
  constructor
  · have hassoc : p ++ fenceJson ++ i = p ++ (fenceJson ++ i) := by
      simp [List.append_assoc]
    have hext : extract_json_str (p ++ fenceJson ++ i) = pyStrip i := by
      rw [hassoc]
      unfold extract_json_str
      rw [if_pos (containsSub_marker fenceJson p i)]
      rw [fenceJson_decomp, splitAfter_marker _ p _ hp]
      rw [fence_decomp, splitBefore_bq_free _ i hi]
    exact ⟨hext, by unfold clean_json; rw [hext]⟩
  · intro hj
    have hassoc : p ++ fence ++ i = p ++ (fence ++ i) := by
      simp [List.append_assoc]
    have hext : extract_json_str (p ++ fence ++ i) = pyStrip i := by
      rw [hassoc]
      unfold extract_json_str
      have h1 : ¬ (containsSub fenceJson (p ++ (fence ++ i)) = true) := by
        simp [fenceJson_not_in_generic p i hp hi hj]
      rw [if_neg h1, if_pos (containsSub_marker fence p i)]
      rw [fence_decomp, splitAfter_marker _ p _ hp, splitBefore_bq_free _ i hi]
    exact ⟨hext, by unfold clean_json; rw [hext]⟩

/-- Claim C2: the normalization pipeline is the identity on a valid JSON
document with no fence marker, no newline and no surrounding whitespace
(every minified JSON document is of this shape), so normalizing yields the
same parsed value as parsing directly. -/
theorem C2_idempotent_on_clean (s : List Char) (v : Json)
    (hv : loads s = some v)
    (hf : containsSub fence s = false)
    (hn : ∀ c ∈ s, c ≠ '\n')
    (hh : isPySpace (s.headD 'x') = false)
    (hl : isPySpace (s.getLastD 'x') = false) :
    clean_json s = s ∧ loads (clean_json s) = some v := by
  have h1 : clean_json s = s := by
    unfold clean_json
    rw [extract_json_str_id s hf, map_nlToSpace_id s hn, pyStrip_id s hh hl]
  exact ⟨h1, by rw [h1, hv]⟩

/-- Claim C3: with no fence in the response, the whole text is the parse
candidate; when it is not valid JSON the handler returns the distinct
parse-failure outcome with HTTP 500, whose body carries the raw response
and whose diagnostic log carries the post-extraction string, and exactly
one LLM call was made (no retry). -/
theorem C3_parse_failure_no_crash (review_text : List Char) (llm : List Char → List Char)
    (hr : review_text ≠ [])
    (hnf : containsSub fence (llm (analyze_prompt review_text)) = false)
    (hbad : loads (clean_json (llm (analyze_prompt review_text))) = none) :
    extract_json_str (llm (analyze_prompt review_text)) = llm (analyze_prompt review_text)
    ∧ analyze_review review_text llm =
        (AnalyzeResult.parseFailure (llm (analyze_prompt review_text))
          (clean_json (llm (analyze_prompt review_text))), [analyze_prompt review_text])
    ∧ (AnalyzeResult.parseFailure (llm (analyze_prompt review_text))
        (clean_json (llm (analyze_prompt review_text)))).status = 500
    ∧ analyze_body (AnalyzeResult.parseFailure (llm (analyze_prompt review_text))
        (clean_json (llm (analyze_prompt review_text)))) =
      Json.obj [("error".data, Json.str "Failed to parse the response from Gemini API".data),
                ("raw_response".data, Json.str (llm (analyze_prompt review_text)))]
    ∧ analyze_debug_log (AnalyzeResult.parseFailure (llm (analyze_prompt review_text))
        (clean_json (llm (analyze_prompt review_text)))) =
      [("Response text: ".data ++ llm (analyze_prompt review_text)),
       ("Extracted JSON string: ".data ++ clean_json (llm (analyze_prompt review_text)))] := by
  refine ⟨extract_json_str_id _ hnf, ?_, rfl, rfl, rfl⟩
  unfold analyze_review
  rw [if_neg (by simp [hr] : ¬(review_text.isEmpty = true))]
  dsimp only
  rw [hbad]

/-- Claim C7: the empty review is rejected with a 400 "empty input" error
and no provider call is made (the prompt list of the run is empty). -/
theorem C7_empty_review (llm : List Char → List Char) :
    analyze_review [] llm = (AnalyzeResult.noReview, [])
    ∧ AnalyzeResult.status AnalyzeResult.noReview = 400
    ∧ analyze_body AnalyzeResult.noReview =
        Json.obj [("error".data, Json.str "No review text provided".data)] :=
  ⟨rfl, rfl, rfl⟩

/-- Claim C4: a nonempty URL whose parse fails or lacks a scheme or netloc
is rejected with a 400 before any network access: nothing is fetched and
no prompt is sent. -/
theorem C4_invalid_url_rejected (url : List Char)
    (fetch_url extract llm : List Char → List Char)
    (hne : url ≠ [])
    (h : urlparse url = none ∨
      ∃ parts, urlparse url = some parts ∧ (parts.scheme = [] ∨ parts.netloc = [])) :
    (scrape_product url fetch_url extract llm).fetched = []
    ∧ (scrape_product url fetch_url extract llm).prompts = []
    ∧ (scrape_product url fetch_url extract llm).result.status = 400
    ∧ ((scrape_product url fetch_url extract llm).result = ScrapeResult.invalidUrlParse
       ∨ (scrape_product url fetch_url extract llm).result = ScrapeResult.invalidUrlFormat) := by
  have hval : scrape_product url fetch_url extract llm = ⟨ScrapeResult.invalidUrlParse, [], []⟩
      ∨ scrape_product url fetch_url extract llm = ⟨ScrapeResult.invalidUrlFormat, [], []⟩ := by
    unfold scrape_product
    rw [if_neg (by simp [hne] : ¬(url.isEmpty = true))]
    rcases h with h0 | ⟨parts, hp, hsn⟩
    · rw [h0]
      exact Or.inl rfl
    · rw [hp]
      dsimp only
      have hcond : parts.scheme.isEmpty = true ∨ parts.netloc.isEmpty = true := by
        rcases hsn with h1 | h1
        · exact Or.inl (by simp [h1])
        · exact Or.inr (by simp [h1])
      rw [if_pos hcond]
      exact Or.inr rfl
  rcases hval with he | he <;> rw [he]
  · exact ⟨rfl, rfl, rfl, Or.inl rfl⟩
  · exact ⟨rfl, rfl, rfl, Or.inr rfl⟩

/-- Shared core for the bot-protection claims: a well-formed URL that the
e-commerce substring check flags, whose download is empty, yields exactly
the `botProtected` outcome having fetched only that URL and sent no
prompt. -/
theorem scrape_bot_protected (url : List Char)
    (fetch_url extract llm : List Char → List Char) (parts : UrlParts)
    (hp : urlparse url = some parts) (hs : parts.scheme ≠ []) (hn : parts.netloc ≠ [])
    (hec : is_ecommerce url = true) (hdl : fetch_url url = []) :
    scrape_product url fetch_url extract llm = ⟨ScrapeResult.botProtected, [url], []⟩ := by
  have hne : url ≠ [] := by
    intro h0
    subst h0
    rw [show urlparse [] = some ⟨[], []⟩ from rfl] at hp
    have h1 := Option.some.inj hp
    rw [← h1] at hn
    exact hn rfl
  unfold scrape_product
  rw [if_neg (by simp [hne] : ¬(url.isEmpty = true))]
  rw [hp]
  dsimp only
  have hcond : ¬(parts.scheme.isEmpty = true ∨ parts.netloc.isEmpty = true) := by
    simp [List.isEmpty_iff, hs, hn]
  rw [if_neg hcond]
  rw [hdl, if_pos (show ([] : List Char).isEmpty = true by decide), if_pos hec]

/-- Claim C5: a URL whose parsed host (netloc) contains one of the
configured e-commerce fragments is classified `BotProtected` (429) when
the download is empty, not as the generic `FetchFailed` (400). -/
theorem C5_host_match_bot_protected (url : List Char)
    (fetch_url extract llm : List Char → List Char) (parts : UrlParts)
    (hp : urlparse url = some parts) (hs : parts.scheme ≠ []) (hn : parts.netloc ≠ [])
    (hhost : ∃ site ∈ e_commerce_sites,
      containsSub site (parts.netloc.map Char.toLower) = true)
    (hdl : fetch_url url = []) :
    scrape_product url fetch_url extract llm = ⟨ScrapeResult.botProtected, [url], []⟩
    ∧ ScrapeResult.status ScrapeResult.botProtected = 429
    ∧ ScrapeResult.status ScrapeResult.fetchFailed = 400 := by
  have hec : is_ecommerce url = true := by
    rcases hhost with ⟨site, hsite, hc⟩
    unfold is_ecommerce
    rw [List.any_eq_true]
    refine ⟨site, hsite, ?_⟩
    rw [containsSub_eq_true_iff] at hc ⊢
    exact hc.trans ((urlparse_netloc_within url parts hp).map Char.toLower)
  exact ⟨scrape_bot_protected url fetch_url extract llm parts hp hs hn hec hdl, rfl, rfl⟩

/-- Claim C9 (implicit): the e-commerce check is a substring test on the
whole lowercased URL, so a fragment anywhere — also in the path or query —
triggers the `BotProtected` (429) classification on an empty download. -/
theorem C9_fragment_anywhere_bot_protected (url : List Char)
    (fetch_url extract llm : List Char → List Char) (parts : UrlParts)
    (hp : urlparse url = some parts) (hs : parts.scheme ≠ []) (hn : parts.netloc ≠ [])
    (hfrag : ∃ site ∈ e_commerce_sites, containsSub site (url.map Char.toLower) = true)
    (hdl : fetch_url url = []) :
    scrape_product url fetch_url extract llm = ⟨ScrapeResult.botProtected, [url], []⟩
    ∧ ScrapeResult.status ScrapeResult.botProtected = 429 := by
  have hec : is_ecommerce url = true := by
    rcases hfrag with ⟨site, hsite, hc⟩
    unfold is_ecommerce
    rw [List.any_eq_true]
    exact ⟨site, hsite, hc⟩
  exact ⟨scrape_bot_protected url fetch_url extract llm parts hp hs hn hec hdl, rfl⟩

/-- Claim C6: on the successful path the first prompt sent embeds exactly
the first 8000 characters of the extracted content: content of at most
8000 characters is embedded unchanged, longer content is cut to exactly
8000 characters. -/
theorem C6_content_truncation (url : List Char)
    (fetch_url extract llm : List Char → List Char) (parts : UrlParts)
    (hp : urlparse url = some parts) (hs : parts.scheme ≠ []) (hn : parts.netloc ≠ [])
    (hdl : fetch_url url ≠ [])
    (hlen : 100 ≤ (extract (fetch_url url)).length) :
    (scrape_product url fetch_url extract llm).prompts.head? =
      some (review_prompt_pre ++ (extract (fetch_url url)).take 8000 ++ review_prompt_post)
    ∧ ((extract (fetch_url url)).length ≤ 8000 →
        (extract (fetch_url url)).take 8000 = extract (fetch_url url))
    ∧ (8000 < (extract (fetch_url url)).length →
        ((extract (fetch_url url)).take 8000).length = 8000) := by
  refine ⟨?_, fun h => List.take_of_length_le h, fun h => by rw [List.length_take]; omega⟩
  have hne : url ≠ [] := by
    intro h0
    subst h0
    rw [show urlparse [] = some ⟨[], []⟩ from rfl] at hp
    have h1 := Option.some.inj hp
    rw [← h1] at hn
    exact hn rfl
  unfold scrape_product
  rw [if_neg (by simp [hne] : ¬(url.isEmpty = true))]
  rw [hp]
  dsimp only
  have hcond : ¬(parts.scheme.isEmpty = true ∨ parts.netloc.isEmpty = true) := by
    simp [List.isEmpty_iff, hs, hn]
  rw [if_neg hcond]
  rw [if_neg (by simp [List.isEmpty_iff, hdl] : ¬((fetch_url url).isEmpty = true))]
  have hcont : ¬((extract (fetch_url url)).isEmpty = true
      ∨ (extract (fetch_url url)).length < 100) := by
    simp only [List.isEmpty_iff, not_or]
    constructor
    · intro h0
      rw [h0] at hlen
      simp at hlen
    · omega
  rw [if_neg hcont]
  split
  · rfl
  · rfl

/-- Claim C8 evaluated at the failing oracle: when every candidate's
construction succeeds but every smoke test fails, the startup block keeps
the last candidate `models/text-bison-001` as the committed handle instead
of the claimed fallback `models/gemini-1.5-flash-latest`, even though
every candidate was smoke-tested and failed. -/
theorem C8_all_smoke_fail_keeps_last_candidate :
    (startup_select true (fun _ => true) (fun _ => false)).model =
      some "models/text-bison-001".data
    ∧ some "models/text-bison-001".data ≠ some fallback_model
    ∧ (startup_select true (fun _ => true) (fun _ => false)).smoke_tested =
        model_candidates := by
  refine ⟨by decide, by decide, by decide⟩

/-- Witness for C1 at a concrete fenced response with prose on both sides. -/
theorem C1_witness :
    extract_json_str ("Sure: ".data ++ fenceJson ++ "\n\x7b\"a\": 1\x7d\n".data ++
        fence ++ " done".data) = pyStrip "\n\x7b\"a\": 1\x7d\n".data :=
  (C1_fenced_json_extraction "Sure: ".data "\n\x7b\"a\": 1\x7d\n".data " done".data
    (by decide) (by decide)).1

/-- Witness for C2 at a concrete minified JSON object. -/
theorem C2_witness :
    clean_json "\x7b\"a\":1\x7d".data = "\x7b\"a\":1\x7d".data
    ∧ loads (clean_json "\x7b\"a\":1\x7d".data) =
        some (Json.obj [("a".data, Json.num "1".data)]) :=
  C2_idempotent_on_clean "\x7b\"a\":1\x7d".data
    (Json.obj [("a".data, Json.num "1".data)])
    (by rfl) (by decide) (by decide) (by decide) (by decide)

/-- Witness for C3 at a concrete prose-only provider response. -/
theorem C3_witness :
    analyze_review "ok".data (fun _ => "not json at all".data) =
      (AnalyzeResult.parseFailure "not json at all".data
        (clean_json "not json at all".data), [analyze_prompt "ok".data]) :=
  (C3_parse_failure_no_crash "ok".data (fun _ => "not json at all".data)
    (by decide) (by decide) (by rfl)).2.1

/-- Witness for C4 at the spec's example input `"amazon"`. -/
theorem C4_witness :
    (scrape_product "amazon".data (fun _ => []) (fun _ => []) (fun _ => [])).fetched = []
    ∧ (scrape_product "amazon".data (fun _ => []) (fun _ => []) (fun _ => [])).prompts = []
    ∧ (scrape_product "amazon".data (fun _ => []) (fun _ => [])
        (fun _ => [])).result.status = 400
    ∧ ((scrape_product "amazon".data (fun _ => []) (fun _ => [])
          (fun _ => [])).result = ScrapeResult.invalidUrlParse
       ∨ (scrape_product "amazon".data (fun _ => []) (fun _ => [])
          (fun _ => [])).result = ScrapeResult.invalidUrlFormat) :=
  C4_invalid_url_rejected "amazon".data (fun _ => []) (fun _ => []) (fun _ => [])
    (by decide) (Or.inr ⟨⟨[], []⟩, by decide, Or.inl rfl⟩)

/-- Witness for C5 at the spec's scenario URL with a simulated empty
download. -/
theorem C5_witness :
    scrape_product "http://example-shop.flipkart.com/x".data (fun _ => [])
      (fun _ => []) (fun _ => []) =
    ⟨ScrapeResult.botProtected, ["http://example-shop.flipkart.com/x".data], []⟩ :=
  (C5_host_match_bot_protected "http://example-shop.flipkart.com/x".data
    (fun _ => []) (fun _ => []) (fun _ => [])
    ⟨"http".data, "example-shop.flipkart.com".data⟩
    (by decide) (by decide) (by decide)
    ⟨".flipkart.".data, by decide, by decide⟩ (by decide)).1

/-- Witness for C6 at a URL with 120 characters of extracted content. -/
theorem C6_witness :
    (scrape_product "http://a.b/".data (fun _ => "x".data)
      (fun _ => List.replicate 120 'a') (fun _ => [])).prompts.head? =
    some (review_prompt_pre ++ (List.replicate 120 'a').take 8000 ++ review_prompt_post) :=
  (C6_content_truncation "http://a.b/".data (fun _ => "x".data)
    (fun _ => List.replicate 120 'a') (fun _ => [])
    ⟨"http".data, "a.b".data⟩ (by decide) (by decide) (by decide)
    (by decide) (by decide)).1

/-- Witness for C9 at a URL whose host matches no configured domain but
whose query string contains `.amazon.`. -/
theorem C9_witness :
    scrape_product "http://testsite.example/p?tag=.amazon.deals".data (fun _ => [])
      (fun _ => []) (fun _ => []) =
    ⟨ScrapeResult.botProtected, ["http://testsite.example/p?tag=.amazon.deals".data], []⟩ :=
  (C9_fragment_anywhere_bot_protected "http://testsite.example/p?tag=.amazon.deals".data
    (fun _ => []) (fun _ => []) (fun _ => [])
    ⟨"http".data, "testsite.example".data⟩
    (by decide) (by decide) (by decide)
    ⟨".amazon.".data, by decide, by decide⟩ (by decide)).1

/-- Witness for C10 at concrete unclosed tagged and generic fences. -/
theorem C10_witness :
    extract_json_str ("Note: ".data ++ fenceJson ++ "\x7b\"b\":2\x7d".data) =
      pyStrip "\x7b\"b\":2\x7d".data
    ∧ extract_json_str ("Note: ".data ++ fence ++ "\x7b\"b\":2\x7d".data) =
      pyStrip "\x7b\"b\":2\x7d".data :=
  ⟨(C10_unclosed_fence "Note: ".data "\x7b\"b\":2\x7d".data (by decide) (by decide)).1.1,
   ((C10_unclosed_fence "Note: ".data "\x7b\"b\":2\x7d".data (by decide) (by decide)).2
     (by decide)).1⟩
